import Mathlib

/-!
Verification development for the ZenTime productivity app.

The definitions below are a shallow embedding of the TypeScript sources
(src/App.tsx and src/services/aiService.ts): JavaScript strings become
Lean String, JS numbers that the program uses integrally become Int,
optional / possibly-undefined values become Option, and code that can
throw returns Except.  Nondeterministic externals (crypto.randomUUID,
Date.now, the network) are threaded as explicit parameters.
-/

set_option maxHeartbeats 1000000

namespace ZenTime

/-- JavaScript truthiness of a possibly-absent string value
(undefined / null / the empty string are falsy). -/
def jsTruthyStr : Option String → Bool
  | none => false
  | some s => s != ""

/-- JavaScript truthiness of a possibly-absent number value
(undefined / null / 0 are falsy). -/
def jsTruthyNum : Option Int → Bool
  | none => false
  | some n => n != 0

/-- JavaScript short-circuiting disjunction over possibly-absent strings,
modelling expressions such as a or-else b on getItem results. -/
def jsOrStr (a b : Option String) : Option String :=
  if jsTruthyStr a then a else b

/-- Substring test on character lists, modelling JavaScript
String.prototype.includes. -/
def listContainsSub (l sub : List Char) : Bool :=
  match l with
  | [] => sub.isEmpty
  | _ :: t => sub.isPrefixOf l || listContainsSub t sub

/-- Substring test on strings, modelling JavaScript includes. -/
def containsSub (s sub : String) : Bool :=
  listContainsSub s.toList sub.toList

/-- Lower-case one character, modelling String.prototype.toLowerCase on
the ASCII fragment the app exchanges (all claim inputs are ASCII). -/
def charLower (c : Char) : Char :=
  if 65 ≤ c.toNat ∧ c.toNat ≤ 90 then Char.ofNat (c.toNat + 32) else c

/-- Lower-case a string, modelling String.prototype.toLowerCase. -/
def strLower (s : String) : String :=
  String.mk (s.data.map charLower)

/-- JSON value, the result shape of JSON.parse for the fragment the app
exchanges with the AI vendors. -/
inductive Json where
  | null : Json
  | bool (b : Bool) : Json
  | num (n : Int) : Json
  | str (s : String) : Json
  | arr (elems : List Json) : Json
  | obj (fields : List (String × Json)) : Json

/-- Skip JSON insignificant whitespace. -/
def skipWs : List Char → List Char
  | [] => []
  | c :: t => if c = ' ' || c = '\n' || c = '\t' || c = '\r' then skipWs t else c :: t

/-- Numeric value of a list of decimal digits. -/
def digitsVal (ds : List Char) : Nat :=
  ds.foldl (fun acc c => acc * 10 + (c.toNat - 48)) 0

/-- Parse the body of a JSON string literal (after the opening quote),
handling the common escapes. -/
def parseStrBody : List Char → Option (String × List Char)
  | [] => none
  | c :: t =>
    if c = '"' then some ("", t)
    else if c = '\\' then
      match t with
      | [] => none
      | e :: t2 =>
        if e = '"' || e = '\\' || e = '/' then
          (parseStrBody t2).map (fun p => (String.mk [e] ++ p.1, p.2))
        else if e = 'n' then
          (parseStrBody t2).map (fun p => (String.mk ['\n'] ++ p.1, p.2))
        else if e = 't' then
          (parseStrBody t2).map (fun p => (String.mk ['\t'] ++ p.1, p.2))
        else none
    else (parseStrBody t).map (fun p => (String.mk [c] ++ p.1, p.2))

/-- Parse a JSON integral numeral (fractional and exponent numerals are
outside the modelled fragment and rejected; no claim input uses them). -/
def parseNum (cs : List Char) : Option (Json × List Char) :=
  let pair := match cs with
    | '-' :: t => (true, t)
    | _ => (false, cs)
  let ds := pair.2.takeWhile Char.isDigit
  let rest := pair.2.dropWhile Char.isDigit
  if ds.isEmpty then none
  else match rest with
    | '.' :: _ => none
    | 'e' :: _ => none
    | 'E' :: _ => none
    | _ =>
      let n : Int := Int.ofNat (digitsVal ds)
      some (Json.num (if pair.1 then -n else n), rest)

mutual

/-- Parse one JSON value; fuel bounds recursion depth. -/
def parseVal : Nat → List Char → Option (Json × List Char)
  | 0, _ => none
  | Nat.succ fuel, cs =>
    match skipWs cs with
    | 'n' :: 'u' :: 'l' :: 'l' :: rest => some (Json.null, rest)
    | 't' :: 'r' :: 'u' :: 'e' :: rest => some (Json.bool true, rest)
    | 'f' :: 'a' :: 'l' :: 's' :: 'e' :: rest => some (Json.bool false, rest)
    | '"' :: rest => (parseStrBody rest).map (fun p => (Json.str p.1, p.2))
    | '[' :: rest =>
      match skipWs rest with
      | ']' :: rest2 => some (Json.arr [], rest2)
      | cs2 => (parseArrItems fuel cs2).map (fun p => (Json.arr p.1, p.2))
    | '\x7b' :: rest =>
      match skipWs rest with
      | '\x7d' :: rest2 => some (Json.obj [], rest2)
      | cs2 => (parseObjItems fuel cs2).map (fun p => (Json.obj p.1, p.2))
    | cs2 => parseNum cs2

/-- Parse the comma-separated items of a nonempty JSON array. -/
def parseArrItems : Nat → List Char → Option (List Json × List Char)
  | 0, _ => none
  | Nat.succ fuel, cs =>
    match parseVal fuel cs with
    | none => none
    | some (v, rest) =>
      match skipWs rest with
      | ',' :: rest2 => (parseArrItems fuel rest2).map (fun p => (v :: p.1, p.2))
      | ']' :: rest2 => some ([v], rest2)
      | _ => none

/-- Parse the comma-separated fields of a nonempty JSON object. -/
def parseObjItems : Nat → List Char → Option (List (String × Json) × List Char)
  | 0, _ => none
  | Nat.succ fuel, cs =>
    match skipWs cs with
    | '"' :: rest =>
      match parseStrBody rest with
      | none => none
      | some (k, rest2) =>
        match skipWs rest2 with
        | ':' :: rest3 =>
          match parseVal fuel rest3 with
          | none => none
          | some (v, rest4) =>
            match skipWs rest4 with
            | ',' :: rest5 => (parseObjItems fuel rest5).map (fun p => ((k, v) :: p.1, p.2))
            | '\x7d' :: rest5 => some ([(k, v)], rest5)
            | _ => none
        | _ => none
    | _ => none

end

/-- Parse a whole string as one JSON document, modelling JSON.parse:
some value on success, none where JSON.parse would throw a SyntaxError
(restricted to the fragment described above). -/
def parseJson (s : String) : Option Json :=
  match parseVal (s.length * 2 + 4) s.toList with
  | some (v, rest) => if (skipWs rest).isEmpty then some v else none
  | none => none

/-- Field lookup on a parsed JSON object, modelling JS property access. -/
def Json.lookupField : Json → String → Option Json
  | Json.obj fields, k => (fields.find? (fun f => f.1 = k)).map (fun f => f.2)
  | _, _ => none

/-- Extract a JSON string value. -/
def Json.asStr : Json → Option String
  | Json.str s => some s
  | _ => none

/-- Extract a JSON number value. -/
def Json.asNum : Json → Option Int
  | Json.num n => some n
  | _ => none

/-- Task priority enum from src/types (TaskPriority). -/
inductive TaskPriority where
  | high : TaskPriority
  | medium : TaskPriority
  | low : TaskPriority
deriving Repr, DecidableEq

/-- Task record from src/types.  The category is kept as a raw string
because the dispatcher stores the model-supplied value with a bare cast
(args.category as TaskCategory) and never validates it; notes is Option
because the TS field is optional and update_task_notes assigns the raw
argument value. -/
structure Task where
  id : String
  title : String
  notes : Option String
  category : String
  priority : TaskPriority
  estimatedDuration : Int
  reminderTime : Option String
  alarmEnabled : Bool
  completed : Bool
  createdAt : Nat
deriving Repr, DecidableEq

/-- General note record from src/types (GeneralNote). -/
structure GeneralNote where
  id : String
  content : String
  createdAt : Nat
  color : Option String
deriving Repr, DecidableEq

/-- The slice of App component state the AI dispatcher can read or write,
plus the external supplies it consumes: fresh numbers the id generator
(crypto.randomUUID) is modelled to draw from, and the current Date.now. -/
structure AppState where
  tasks : List Task
  generalNotes : List GeneralNote
  fresh : Nat
  now : Nat
deriving Repr, DecidableEq

/-- Argument mapping of a function invocation as the dispatcher reads it:
every property access (args.title, args.duration, ...) may find the field
absent, hence Option.  Where the source would coerce an undefined value
into displayed text, the embedding uses the string "undefined"; every
claim supplies the fields the tool schema declares required. -/
structure ToolArgs where
  title : Option String := none
  category : Option String := none
  duration : Option Int := none
  notes : Option String := none
  alarmTime : Option String := none
  taskTitle : Option String := none
  time : Option String := none
deriving Repr, DecidableEq

/-- A structured function invocation (part.functionCall). -/
structure FunctionCall where
  name : String
  args : ToolArgs
deriving Repr, DecidableEq

/-- One part of a canonical AI response (text and/or functionCall, both
optional, exactly as in the AIResponse interface of aiService.ts). -/
structure Part where
  text : Option String := none
  functionCall : Option FunctionCall := none
deriving Repr, DecidableEq

/-- Content wrapper of a response candidate. -/
structure Content where
  parts : List Part
deriving Repr, DecidableEq

/-- One response candidate. -/
structure Candidate where
  content : Content
deriving Repr, DecidableEq

/-- Canonical AI response shape shared by both provider adapters. -/
structure AIResponse where
  candidates : List Candidate
deriving Repr, DecidableEq

/-- A thrown JavaScript error as the catch block in handleAiCommand sees
it: only its (possibly absent or empty) message property is inspected. -/
structure JsError where
  message : Option String
deriving Repr, DecidableEq

/-- addTask from src/App.tsx lines 97-112: builds the new Task record
(notes defaulted to the empty string, alarmEnabled is the truthiness of
alarmTime, reminderTime stores alarmTime verbatim, priority MEDIUM) and
appends it to the task list.  The generated id and createdAt come from
the state's fresh-number supply and clock. -/
def addTask (st : AppState) (title category : String) (duration : Int)
    (notes alarmTime : Option String) : AppState × Task :=
  let newTask : Task :=
    { id := "task-" ++ toString st.fresh
      title := title
      notes := some (notes.getD "")
      category := category
      priority := TaskPriority.medium
      estimatedDuration := duration
      reminderTime := alarmTime
      alarmEnabled := jsTruthyStr alarmTime
      completed := false
      createdAt := st.now }
  ({ st with tasks := st.tasks ++ [newTask], fresh := st.fresh + 1 }, newTask)

/-- Fuzzy title match used by update_task_notes and set_alarm
(src/App.tsx lines 158 and 164): case-insensitive substring test of the
taskTitle argument against the task title. -/
def titleMatches (t : Task) (taskTitle : String) : Bool :=
  containsSub (strLower t.title) (strLower taskTitle)

/-- Dispatch of one function invocation, src/App.tsx lines 151-169:
create_task appends a task and acknowledges with its title;
update_task_notes rewrites every task whose title fuzzily matches,
overwriting notes and, when the duration argument is truthy, the
duration; set_alarm rewrites every fuzzy match, storing the time and
enabling the alarm; any other name falls through all branches, leaving
state untouched and appending nothing.  Returns the updated state and
the acknowledgment text appended to the reply. -/
def dispatchFunctionCall (st : AppState) (c : FunctionCall) : AppState × String :=
  if c.name = "create_task" then
    let r := addTask st (c.args.title.getD "undefined") (c.args.category.getD "undefined")
      (c.args.duration.getD 0) c.args.notes c.args.alarmTime
    (r.1, "\n[System: Created task \"" ++ r.2.title ++ "\"]")
  else if c.name = "update_task_notes" then
    let key := strLower (c.args.taskTitle.getD "undefined")
    ({ st with tasks := st.tasks.map (fun t =>
        if containsSub (strLower t.title) key then
          { t with notes := c.args.notes
                   estimatedDuration :=
                     if jsTruthyNum c.args.duration then c.args.duration.getD 0
                     else t.estimatedDuration }
        else t) },
     "\n[System: Optimized \"" ++ c.args.taskTitle.getD "undefined" ++ "\"]")
  else if c.name = "set_alarm" then
    let key := strLower (c.args.taskTitle.getD "undefined")
    ({ st with tasks := st.tasks.map (fun t =>
        if containsSub (strLower t.title) key then
          { t with reminderTime := c.args.time, alarmEnabled := true }
        else t) },
     "\n[System: Reminder set for " ++ c.args.time.getD "undefined" ++ "]")
  else (st, "")

/-- The part loop of handleAiCommand (src/App.tsx lines 147-170): walk
the parts in order, appending truthy text verbatim and dispatching each
function invocation at its position, accumulating the reply text. -/
def processParts (st : AppState) (acc : String) : List Part → AppState × String
  | [] => (st, acc)
  | p :: rest =>
    let acc1 := if jsTruthyStr p.text then acc ++ p.text.getD "" else acc
    match p.functionCall with
    | some c =>
      let r := dispatchFunctionCall st c
      processParts r.1 (acc1 ++ r.2) rest
    | none => processParts st acc1 rest

/-- Fallback reply used when the accumulated response text is empty
(src/App.tsx line 172). -/
def fallbackReply : String := "I've updated your schedule accordingly."

/-- Actionable message shown for API-key failures (src/App.tsx line 178). -/
def apiKeyConfigMsg : String :=
  "API key not configured. Please go to Settings to add your API key."

/-- Error translation of the catch block in handleAiCommand (src/App.tsx
lines 173-183): a truthy message containing "API key" becomes the
actionable configuration hint, any other truthy message is shown behind
an "Error: " banner, and a falsy message yields the generic retry text. -/
def errorMessageFor (msg : Option String) : String :=
  if jsTruthyStr msg then
    if containsSub (msg.getD "") "API key" then apiKeyConfigMsg
    else "Error: " ++ msg.getD ""
  else "Error connecting to AI. Please try again."

/-- Message of the TypeError raised when response.candidates[0] is
absent and .content is read from undefined (V8 wording, modelled). -/
def undefinedContentMsg : String :=
  "Cannot read properties of undefined (reading 'content')"

/-- handleAiCommand from src/App.tsx lines 141-187, given the already
settled outcome of the await on getAIResponse: on success it processes
the first candidate's parts and falls back to a canned reply when no
text accumulated; on failure it translates the error message.  Returns
the state after all dispatched mutations and the model chat line. -/
def handleAiCommand (st : AppState) (result : Except JsError AIResponse) :
    AppState × String :=
  match result with
  | Except.error e => (st, errorMessageFor e.message)
  | Except.ok r =>
    match r.candidates with
    | [] => (st, errorMessageFor (some undefinedContentMsg))
    | cand :: _ =>
      let o := processParts st "" cand.content.parts
      (o.1, if o.2 = "" then fallbackReply else o.2)

/-- Raw function payload of an OpenAI tool call (call.function), with
the arguments still an embedded JSON string. -/
structure RawFunction where
  name : String
  arguments : String
deriving Repr, DecidableEq

/-- One entry of message.tool_calls in an OpenAI chat reply. -/
structure RawToolCall where
  function : RawFunction
deriving Repr, DecidableEq

/-- The assistant message of an OpenAI chat reply
(data.choices[0].message): content may be null, tool_calls may be
absent. -/
structure OpenAIMessage where
  content : Option String
  tool_calls : Option (List RawToolCall)
deriving Repr, DecidableEq

/-- Message of the SyntaxError raised by JSON.parse on an unparseable
tool-argument string (modelled wording). -/
def jsonArgsErrMsg : String := "Unexpected token in JSON"

/-- Read a ToolArgs mapping off a parsed JSON arguments object, one
property access per declared tool parameter. -/
def toolArgsOfJson (j : Json) : ToolArgs :=
  { title := (j.lookupField "title").bind Json.asStr
    category := (j.lookupField "category").bind Json.asStr
    duration := (j.lookupField "duration").bind Json.asNum
    notes := (j.lookupField "notes").bind Json.asStr
    alarmTime := (j.lookupField "alarmTime").bind Json.asStr
    taskTitle := (j.lookupField "taskTitle").bind Json.asStr
    time := (j.lookupField "time").bind Json.asStr }

/-- The tool_calls.map of OpenAIProvider.generateContent (aiService.ts
lines 246-252): each entry becomes a functionCall part with
JSON.parse applied to the embedded arguments string; the first
unparseable string throws, aborting the whole map. -/
def normalizeToolCalls : List RawToolCall → Except JsError (List Part)
  | [] => Except.ok []
  | c :: rest =>
    match parseJson c.function.arguments with
    | none => Except.error { message := some jsonArgsErrMsg }
    | some j =>
      match normalizeToolCalls rest with
      | Except.error e => Except.error e
      | Except.ok ps =>
        Except.ok ({ text := none,
                     functionCall := some { name := c.function.name,
                                            args := toolArgsOfJson j } } :: ps)

/-- Response normalization of OpenAIProvider.generateContent
(aiService.ts lines 240-258): with truthy tool_calls every entry is
mapped to a functionCall part (discarding message content); otherwise
the message content becomes the single text part. -/
def openAINormalize (msg : OpenAIMessage) : Except JsError AIResponse :=
  match msg.tool_calls with
  | some calls =>
    match normalizeToolCalls calls with
    | Except.error e => Except.error e
    | Except.ok ps => Except.ok { candidates := [{ content := { parts := ps } }] }
  | none =>
    Except.ok { candidates := [{ content :=
      { parts := [{ text := msg.content, functionCall := none }] } }] }

/-- Ambient key-value configuration read through localStorage.getItem:
absent keys are null (none). -/
structure StorageConfig where
  aiProvider : Option String := none
  aiApiKey : Option String := none
  gemini_api_key : Option String := none
  openai_api_key : Option String := none
deriving Repr, DecidableEq

/-- AIService.getApiKey (aiService.ts lines 317-325): provider-specific
key falling back to the generic aiApiKey, else null. -/
def getApiKey (cfg : StorageConfig) (provider : String) : Option String :=
  if strLower provider = "openai" then
    jsOrStr cfg.openai_api_key (jsOrStr cfg.aiApiKey none)
  else
    jsOrStr cfg.gemini_api_key (jsOrStr cfg.aiApiKey none)

/-- The resolved provider name: getItem('aiProvider') with 'gemini' as
the falsy default (aiService.ts line 293). -/
def resolvedProviderName (cfg : StorageConfig) : String :=
  (jsOrStr cfg.aiProvider (some "gemini")).getD "gemini"

/-- The active provider adapter: a real vendor adapter, or the failing
stand-in returned when no credential resolves. -/
inductive Provider where
  | gemini (apiKey : String) : Provider
  | openai (apiKey : String) : Provider
  | mockFailing (providerName : String) : Provider
deriving Repr, DecidableEq

/-- Error message thrown by every operation of the failing stand-in
(aiService.ts lines 300 and 303). -/
def mockErrorMessage (p : String) : String :=
  "API key not found for provider: " ++ p ++
  ". Please configure your API settings in the Settings panel."

/-- AIService.createProvider (aiService.ts lines 292-315): resolve the
provider name and credential; with a falsy credential return the
failing stand-in (construction itself never fails — the function is
total); otherwise pick the vendor adapter, unknown names defaulting to
gemini. -/
def createProvider (cfg : StorageConfig) : Provider :=
  let aiProvider := resolvedProviderName cfg
  let apiKey := getApiKey cfg aiProvider
  if jsTruthyStr apiKey = false then Provider.mockFailing aiProvider
  else if strLower aiProvider = "openai" then Provider.openai (apiKey.getD "")
  else Provider.gemini (apiKey.getD "")

/-- generateContent on the active adapter.  A real vendor adapter's
outcome is whatever the network interaction produced (passed in as a
parameter, since the transport is external); the failing stand-in
always throws its credential message. -/
def Provider.generateContent (p : Provider)
    (network : Except JsError AIResponse) : Except JsError AIResponse :=
  match p with
  | Provider.mockFailing name => Except.error { message := some (mockErrorMessage name) }
  | _ => network

/-- generateJSON on the active adapter, analogous to generateContent. -/
def Provider.generateJSON (p : Provider)
    (network : Except JsError Json) : Except JsError Json :=
  match p with
  | Provider.mockFailing name => Except.error { message := some (mockErrorMessage name) }
  | _ => network

/-- Startup load of one persisted value (src/App.tsx lines 25-36): the
pattern saved ? JSON.parse(saved) : deflt.  A falsy stored value (absent
key) yields the typed default; a present value is fed to JSON.parse,
whose SyntaxError on unreadable input propagates out of the state
initializer (there is no catch). -/
def loadPersisted (saved : Option String) (deflt : Json) : Except JsError Json :=
  if jsTruthyStr saved then
    match parseJson (saved.getD "") with
    | some j => Except.ok j
    | none => Except.error { message := some jsonArgsErrMsg }
  else Except.ok deflt

/-- Startup load of the task collection (key zentime-tasks-v2). -/
def loadStoredTasks (saved : Option String) : Except JsError Json :=
  loadPersisted saved (Json.arr [])

/-- Default profile object built when the profile key is absent. -/
def defaultProfileJson (now : Int) : Json :=
  Json.obj [("name", Json.str "User"),
            ("mantra", Json.str "Stay focused, stay calm."),
            ("joinedDate", Json.num now)]

/-- Startup load of the profile (key zentime-profile). -/
def loadStoredProfile (saved : Option String) (now : Int) : Except JsError Json :=
  loadPersisted saved (defaultProfileJson now)

/-- Startup load of the general notes (key zentime-general-notes). -/
def loadStoredNotes (saved : Option String) : Except JsError Json :=
  loadPersisted saved (Json.arr [])

/-- The alarm predicate of the tick effect (src/App.tsx line 80):
alarm enabled, reminder time equal to the current HH:mm string, and not
completed. -/
def taskMatches (timeStr : String) (t : Task) : Bool :=
  t.alarmEnabled && t.reminderTime == some timeStr && !t.completed

/-- tasks.find of the tick effect: first task in stored order matching
the current minute. -/
def ringingTask (tasks : List Task) (timeStr : String) : Option Task :=
  tasks.find? (taskMatches timeStr)

/-- One second tick of the alarm effect (src/App.tsx lines 74-91):
when a ringing task is found and it is not already the active alarm,
it becomes the active alarm and the tone fires; otherwise nothing
changes.  Returns the new active alarm and whether the tone fired. -/
def tickAlarm (tasks : List Task) (timeStr : String) (active : Option Task) :
    Option Task × Bool :=
  match ringingTask tasks timeStr with
  | some r =>
    if active.map Task.id = some r.id then (active, false) else (some r, true)
  | none => (active, false)

/-- User-visible events driving the alarm state: a clock tick carrying
the formatted current minute, or a click on the DISMISS button
(setActiveAlarm(null), src/App.tsx line 654). -/
inductive UiEvent where
  | tick (timeStr : String) : UiEvent
  | dismiss : UiEvent
deriving Repr, DecidableEq

/-- Run the alarm state machine over a sequence of events, logging each
tone fired as the pair (minute string, task id). -/
def runAlarm (tasks : List Task) (active : Option Task) :
    List UiEvent → Option Task × List (String × String)
  | [] => (active, [])
  | UiEvent.dismiss :: rest => runAlarm tasks none rest
  | UiEvent.tick s :: rest =>
    let r := tickAlarm tasks s active
    let o := runAlarm tasks r.1 rest
    (o.1, (if r.2 then
             match r.1 with
             | some t => [(s, t.id)]
             | none => []
           else []) ++ o.2)

/-! Helper lemmas about the substring test and the reply accumulation. -/

/-- A prefix is in particular a substring. -/
theorem listContainsSub_of_prefix (l sub : List Char) (h : sub <+: l) :
    listContainsSub l sub = true := by
  cases l with
  | nil =>
    have hs : sub = [] := List.prefix_nil.mp h
    simp [listContainsSub, hs]
  | cons a t =>
    have hp : sub.isPrefixOf (a :: t) = true := by
      rw [List.isPrefixOf_iff_prefix]; exact h
    simp [listContainsSub, hp]

/-- The substring test is preserved by prepending characters. -/
theorem listContainsSub_append_left (pre l sub : List Char)
    (h : listContainsSub l sub = true) : listContainsSub (pre ++ l) sub = true := by
  induction pre with
  | nil => simpa using h
  | cons a t ih => simp [listContainsSub, ih]

/-- Every list contains itself as a substring. -/
theorem listContainsSub_self (l : List Char) : listContainsSub l l = true := by
  cases l with
  | nil => rfl
  | cons a t => simp [listContainsSub, List.isPrefixOf_iff_prefix]

/-- A string contains its own suffix. -/
theorem containsSub_append_self (a b : String) : containsSub (a ++ b) b = true := by
  unfold containsSub
  simp only [String.toList, String.data_append]
  exact listContainsSub_append_left _ _ _ (listContainsSub_self _)

/-- A string contains its own first summand. -/
theorem containsSub_append_left_self (a b : String) : containsSub (a ++ b) a = true := by
  unfold containsSub
  simp only [String.toList, String.data_append]
  exact listContainsSub_of_prefix _ _ (List.prefix_append _ _)

/-- The stand-in's error message always mentions "API key". -/
theorem mockErrorMessage_contains_apikey (p : String) :
    containsSub (mockErrorMessage p) "API key" = true := by
  unfold mockErrorMessage containsSub
  simp only [String.toList, String.data_append, List.append_assoc]
  apply listContainsSub_of_prefix
  have hpre : ("API key".data : List Char) <+:
      "API key not found for provider: ".data := by decide
  exact hpre.trans (List.prefix_append _ _)

/-- The stand-in's error message is a truthy (nonempty) string. -/
theorem mockErrorMessage_truthy (p : String) :
    jsTruthyStr (some (mockErrorMessage p)) = true := by
  simp only [jsTruthyStr, mockErrorMessage, bne_iff_ne, ne_eq, decide_eq_true_eq]
  intro h
  have hd := congrArg String.data h
  simp only [String.data_append] at hd
  simp at hd

/-- An error banner never coincides with the API-key configuration hint
(their first characters differ). -/
theorem errorBanner_ne_apiKeyMsg (m : String) : "Error: " ++ m ≠ apiKeyConfigMsg := by
  intro h
  have hd := congrArg String.data h
  rw [String.data_append] at hd
  have h1 : ("Error: ".data ++ m.data).head? = some 'E' := rfl
  rw [hd] at h1
  have h2 : apiKeyConfigMsg.data.head? = some 'A' := rfl
  rw [h2] at h1
  exact absurd h1 (by decide)

/-- Concatenation of a list of strings in order. -/
def concatAll : List String → String
  | [] => ""
  | s :: rest => s ++ concatAll rest

/-- The acknowledgment text one function invocation appends to the reply,
as a pure function of the invocation (the create_task acknowledgment
names the created task's title, which equals the title argument). -/
def partAck (c : FunctionCall) : String :=
  if c.name = "create_task" then
    "\n[System: Created task \"" ++ c.args.title.getD "undefined" ++ "\"]"
  else if c.name = "update_task_notes" then
    "\n[System: Optimized \"" ++ c.args.taskTitle.getD "undefined" ++ "\"]"
  else if c.name = "set_alarm" then
    "\n[System: Reminder set for " ++ c.args.time.getD "undefined" ++ "]"
  else ""

/-- The reply text contributed by one response part: its text, if truthy,
followed by the acknowledgment of its function invocation, if any. -/
def partTextContribution (p : Part) : String :=
  (if jsTruthyStr p.text then p.text.getD "" else "") ++
  (match p.functionCall with
   | some c => partAck c
   | none => "")

/-- The acknowledgment returned by the dispatcher depends only on the
invocation, not on the task state. -/
theorem dispatchFunctionCall_snd (st : AppState) (c : FunctionCall) :
    (dispatchFunctionCall st c).2 = partAck c := by
  unfold dispatchFunctionCall partAck addTask
  split_ifs <;> rfl

/-- The reply accumulated by the part loop is the initial accumulator
followed by each part's contribution, in part order. -/
theorem processParts_text (st : AppState) (acc : String) (parts : List Part) :
    (processParts st acc parts).2 = acc ++ concatAll (parts.map partTextContribution) := by
  induction parts generalizing st acc with
  | nil => simp [processParts, concatAll]
  | cons p rest ih =>
    unfold processParts
    cases hfc : p.functionCall with
    | none =>
      rw [ih]
      cases ht : jsTruthyStr p.text <;>
        simp [partTextContribution, hfc, ht, concatAll, String.append_assoc]
    | some c =>
      rw [ih, dispatchFunctionCall_snd]
      cases ht : jsTruthyStr p.text <;>
        simp [partTextContribution, hfc, ht, concatAll, String.append_assoc]

/-- Every part produced from a tool-call list is a pure function-call
part (no text). -/
theorem normalizeToolCalls_ok_parts (calls : List RawToolCall) (ps : List Part)
    (h : normalizeToolCalls calls = Except.ok ps) :
    ∀ p ∈ ps, p.text = none ∧ p.functionCall.isSome = true := by
  induction calls generalizing ps with
  | nil =>
    unfold normalizeToolCalls at h
    cases h
    intro p hp
    cases hp
  | cons c rest ih =>
    unfold normalizeToolCalls at h
    cases hparse : parseJson c.function.arguments with
    | none => rw [hparse] at h; cases h
    | some j =>
      rw [hparse] at h
      cases hrest : normalizeToolCalls rest with
      | error e => rw [hrest] at h; cases h
      | ok ps2 =>
        rw [hrest] at h
        cases h
        intro p hp
        cases hp with
        | head => exact ⟨rfl, rfl⟩
        | tail _ hmem => exact ih ps2 hrest p hmem

/-- A tool-call list with an unparseable arguments string normalizes to
an error. -/
theorem normalizeToolCalls_error (calls : List RawToolCall)
    (h : ∃ c ∈ calls, parseJson c.function.arguments = none) :
    ∃ e, normalizeToolCalls calls = Except.error e := by
  induction calls with
  | nil => obtain ⟨c, hc, _⟩ := h; cases hc
  | cons c rest ih =>
    obtain ⟨c0, hc0, hp0⟩ := h
    cases hc0 with
    | head =>
      refine ⟨{ message := some jsonArgsErrMsg }, ?_⟩
      unfold normalizeToolCalls
      rw [hp0]
    | tail _ hmem =>
      obtain ⟨e, he⟩ := ih ⟨c0, hmem, hp0⟩
      unfold normalizeToolCalls
      cases hparse : parseJson c.function.arguments with
      | none => exact ⟨{ message := some jsonArgsErrMsg }, rfl⟩
      | some j => rw [he]; exact ⟨e, rfl⟩

/-! Claim C1: fuzzy lookup and which matches are mutated. -/

/-- First stored task of the C1 scenario. -/
def writeReportTask : Task :=
  { id := "a", title := "Write Report", notes := some "first original notes",
    category := "Private", priority := TaskPriority.medium, estimatedDuration := 30,
    reminderTime := none, alarmEnabled := false, completed := false, createdAt := 0 }

/-- Second stored task of the C1 scenario. -/
def writeReportDraftTask : Task :=
  { writeReportTask with
      id := "b"
      title := "Write Report Draft"
      notes := some "second original notes" }

/-- App state holding the two C1 scenario tasks in stored order. -/
def c1State : AppState :=
  { tasks := [writeReportTask, writeReportDraftTask], generalNotes := [],
    fresh := 0, now := 0 }

/-- Arguments of the C1 scenario invocation. -/
def c1UpdateArgs : ToolArgs :=
  { taskTitle := some "write report", notes := some "new notes" }

/-- Result of dispatching update_task_notes with taskTitle "write report"
against the C1 scenario state. -/
def c1Dispatched : AppState :=
  (dispatchFunctionCall c1State
    { name := "update_task_notes", args := c1UpdateArgs }).1

/-- C1 counterexample: with tasks titled "Write Report" and
"Write Report Draft", dispatching update_task_notes with
taskTitle "write report" overwrites the notes of BOTH tasks — the second
matching task is not left unchanged, so first-match-only mutation fails. -/
theorem c1_counterexample :
    (c1Dispatched.tasks.map Task.notes) = [some "new notes", some "new notes"] ∧
    c1Dispatched.tasks[1]? ≠ some writeReportDraftTask := by
  constructor
  · rfl
  · decide

/-- C1 (amended): a dispatched update_task_notes or set_alarm invocation
mutates EVERY stored task whose title case-insensitively contains the
taskTitle argument as a substring, and leaves every non-matching task
unchanged; it is not restricted to the first match in stored order. -/
theorem c1_all_matches_mutated (st : AppState) (args : ToolArgs) (i : Nat) (t : Task)
    (ht : st.tasks[i]? = some t) :
    (containsSub (strLower t.title) (strLower (args.taskTitle.getD "undefined")) = true →
      (dispatchFunctionCall st { name := "update_task_notes", args := args }).1.tasks[i]? =
        some { t with notes := args.notes,
                      estimatedDuration :=
                        if jsTruthyNum args.duration then args.duration.getD 0
                        else t.estimatedDuration } ∧
      (dispatchFunctionCall st { name := "set_alarm", args := args }).1.tasks[i]? =
        some { t with reminderTime := args.time, alarmEnabled := true }) ∧
    (containsSub (strLower t.title) (strLower (args.taskTitle.getD "undefined")) = false →
      (dispatchFunctionCall st { name := "update_task_notes", args := args }).1.tasks[i]? =
        some t ∧
      (dispatchFunctionCall st { name := "set_alarm", args := args }).1.tasks[i]? =
        some t) := by
  constructor <;> intro h <;>
    constructor <;>
      simp [dispatchFunctionCall, List.getElem?_map, ht, h]

/-- C1 amended-claim witness: concrete two-task run of the amended
theorem at index 1, the second (also matching) task. -/
theorem c1_all_matches_mutated_witness :
    c1State.tasks[1]? = some writeReportDraftTask ∧
    (containsSub (strLower writeReportDraftTask.title)
        (strLower (c1UpdateArgs.taskTitle.getD "undefined")) = true →
      (dispatchFunctionCall c1State
        { name := "update_task_notes", args := c1UpdateArgs }).1.tasks[1]? =
        some { writeReportDraftTask with
                 notes := some "new notes",
                 estimatedDuration := writeReportDraftTask.estimatedDuration } ∧
      (dispatchFunctionCall c1State
        { name := "set_alarm", args := c1UpdateArgs }).1.tasks[1]? =
        some { writeReportDraftTask with reminderTime := none, alarmEnabled := true }) := by
  refine ⟨rfl, ?_⟩
  exact fun h => (c1_all_matches_mutated c1State c1UpdateArgs 1
    writeReportDraftTask rfl).1 h

/-! Claim C3: reply text is built in response-part order. -/

/-- Arguments of the C3 scenario create_task invocation. -/
def c3CreateArgs : ToolArgs :=
  { title := some "X", category := some "Private", duration := some 30 }

/-- Parts of the concrete C3 scenario response. -/
def c3Parts : List Part :=
  [{ text := some "Sure, " },
   { functionCall := some { name := "create_task", args := c3CreateArgs } },
   { text := some "done." }]

/-- C3: the dispatcher's reply is the in-order concatenation of each
part's contribution (text verbatim, acknowledgment at the invocation's
position), and the concrete scenario parts yield exactly the reply
"Sure, \n[System: Created task \"X\"]done." with X the created title. -/
theorem c3_reply_order :
    (∀ (st : AppState) (acc : String) (parts : List Part),
      (processParts st acc parts).2 = acc ++ concatAll (parts.map partTextContribution)) ∧
    (handleAiCommand { tasks := [], generalNotes := [], fresh := 0, now := 0 }
      (Except.ok { candidates := [{ content := { parts := c3Parts } }] })).2 =
      "Sure, \n[System: Created task \"X\"]done." := by
  exact ⟨processParts_text, rfl⟩

/-! Claim C4: alarm flag of a created task versus the alarmTime argument. -/

/-- Arguments of the C4 counterexample: an alarmTime argument IS
supplied, but as the empty string. -/
def c4Args : ToolArgs :=
  { title := some "Morning run", category := some "Private", duration := some 30,
    alarmTime := some "" }

/-- C4 counterexample: a create_task invocation that supplies
alarmTime = "" produces a task whose alarm-enabled flag is false, so
the flag is NOT equivalent to "an alarmTime argument was supplied". -/
theorem c4_counterexample :
    c4Args.alarmTime = some "" ∧
    ((dispatchFunctionCall { tasks := [], generalNotes := [], fresh := 0, now := 0 }
        { name := "create_task", args := c4Args }).1.tasks.map Task.alarmEnabled) =
      [false] := by
  exact ⟨rfl, rfl⟩

/-- C4 (amended): for every task created through a dispatched
create_task invocation, the alarm-enabled flag is true iff a TRUTHY
(present and nonempty) alarmTime argument was supplied, and the task's
reminder time always stores the alarmTime argument verbatim. -/
theorem c4_alarm_iff_truthy_alarmTime (st : AppState) (args : ToolArgs) :
    ∃ t, (dispatchFunctionCall st { name := "create_task", args := args }).1.tasks =
        st.tasks ++ [t] ∧
      t.alarmEnabled = jsTruthyStr args.alarmTime ∧
      t.reminderTime = args.alarmTime ∧
      t.title = args.title.getD "undefined" := by
  exact ⟨_, rfl, rfl, rfl, rfl⟩

/-! Claim C5: unrecognized function names are silently ignored. -/

/-- C5: dispatching an invocation whose name is none of the three
recognized ones leaves the task collection and the note collection
unchanged and contributes no acknowledgment text. -/
theorem c5_unknown_name_noop (st : AppState) (name : String) (args : ToolArgs)
    (h1 : name ≠ "create_task") (h2 : name ≠ "update_task_notes")
    (h3 : name ≠ "set_alarm") :
    (dispatchFunctionCall st { name := name, args := args }).1.tasks = st.tasks ∧
    (dispatchFunctionCall st { name := name, args := args }).1.generalNotes =
      st.generalNotes ∧
    dispatchFunctionCall st { name := name, args := args } = (st, "") := by
  refine ⟨?_, ?_, ?_⟩ <;> simp [dispatchFunctionCall, h1, h2, h3]

/-- C5 witness: the unrecognized name delete_task at a concrete state. -/
theorem c5_unknown_name_noop_witness :
    (dispatchFunctionCall c1State { name := "delete_task", args := {} }).1.tasks =
      c1State.tasks ∧
    (dispatchFunctionCall c1State { name := "delete_task", args := {} }).1.generalNotes =
      c1State.generalNotes ∧
    dispatchFunctionCall c1State { name := "delete_task", args := {} } = (c1State, "") := by
  exact c5_unknown_name_noop c1State "delete_task" {}
    (by decide) (by decide) (by decide)

/-! Claim C2: vendor-B reply with an unparseable tool-argument string. -/

/-- A well-formed tool-call entry (arguments parse as JSON). -/
def c2GoodCall : RawToolCall :=
  { function := { name := "create_task",
                  arguments := "\x7b\"title\":\"A\",\"category\":\"Private\",\"duration\":30\x7d" } }

/-- A malformed tool-call entry (arguments are not valid JSON). -/
def c2BadCall : RawToolCall :=
  { function := { name := "update_task_notes", arguments := "not json" } }

/-- Vendor-B reply carrying one valid and one malformed invocation. -/
def c2BadMsg : OpenAIMessage :=
  { content := none, tool_calls := some [c2GoodCall, c2BadCall] }

/-- Empty app state used in the C2 scenario. -/
def c2State : AppState :=
  { tasks := [], generalNotes := [], fresh := 0, now := 0 }

/-- C2 counterexample: although the reply contains a valid create_task
invocation alongside the malformed one, the adapter fails as a whole,
no task is created and no part is processed — the valid invocation is
NOT dispatched, contradicting the claim that the remaining parts are
still processed. -/
theorem c2_counterexample :
    c2GoodCall.function.name = "create_task" ∧
    (parseJson c2GoodCall.function.arguments).isSome = true ∧
    parseJson c2BadCall.function.arguments = none ∧
    (∃ e, openAINormalize c2BadMsg = Except.error e) ∧
    (handleAiCommand c2State (openAINormalize c2BadMsg)).1.tasks = [] ∧
    (handleAiCommand c2State (openAINormalize c2BadMsg)).2 =
      "Error: " ++ jsonArgsErrMsg := by
  refine ⟨rfl, rfl, rfl, ⟨{ message := some jsonArgsErrMsg }, rfl⟩, rfl, rfl⟩

/-- C2 (amended): when any tool-call entry's embedded arguments string is
not valid JSON, the vendor-B adapter's generateContent fails as a whole;
the dispatcher catches the failure, processes NO response parts, leaves
the state unchanged, and surfaces the translated error message as the
chat reply (the app itself does not crash). -/
theorem c2_whole_response_discarded (st : AppState) (msg : OpenAIMessage)
    (calls : List RawToolCall) (h1 : msg.tool_calls = some calls)
    (h2 : ∃ c ∈ calls, parseJson c.function.arguments = none) :
    ∃ e, openAINormalize msg = Except.error e ∧
      handleAiCommand st (openAINormalize msg) = (st, errorMessageFor e.message) := by
  obtain ⟨e, he⟩ := normalizeToolCalls_error calls h2
  refine ⟨e, ?_, ?_⟩ <;> simp [openAINormalize, h1, he, handleAiCommand]

/-- C2 amended-claim witness at the concrete mixed reply. -/
theorem c2_whole_response_discarded_witness :
    c2BadMsg.tool_calls = some [c2GoodCall, c2BadCall] ∧
    (∃ e, openAINormalize c2BadMsg = Except.error e ∧
      handleAiCommand c2State (openAINormalize c2BadMsg) =
        (c2State, errorMessageFor e.message)) := by
  refine ⟨rfl, ?_⟩
  exact c2_whole_response_discarded c2State c2BadMsg [c2GoodCall, c2BadCall] rfl
    ⟨c2BadCall, by simp, rfl⟩

/-! Claim C6: missing credential stand-in and failure translation. -/

/-- C6: with no resolvable credential the service still constructs (the
selector is total and returns the failing stand-in); every later
generateContent / generateJSON call on the stand-in fails with the
credential message; the dispatcher renders that failure as the
actionable configure-your-API-key hint; and any other failure message
(one not containing "API key") is rendered behind an "Error: " banner
that quotes it verbatim and is distinct from the hint. -/
theorem c6_credential_missing (cfg : StorageConfig) (st : AppState)
    (net : Except JsError AIResponse) (netJ : Except JsError Json) (m : String)
    (hkey : jsTruthyStr (getApiKey cfg (resolvedProviderName cfg)) = false)
    (hm1 : m ≠ "") (hm2 : containsSub m "API key" = false) :
    createProvider cfg = Provider.mockFailing (resolvedProviderName cfg) ∧
    (createProvider cfg).generateContent net =
      Except.error { message := some (mockErrorMessage (resolvedProviderName cfg)) } ∧
    (createProvider cfg).generateJSON netJ =
      Except.error { message := some (mockErrorMessage (resolvedProviderName cfg)) } ∧
    handleAiCommand st ((createProvider cfg).generateContent net) =
      (st, apiKeyConfigMsg) ∧
    errorMessageFor (some m) = "Error: " ++ m ∧
    containsSub (errorMessageFor (some m)) m = true ∧
    errorMessageFor (some m) ≠ apiKeyConfigMsg := by
  have hprov : createProvider cfg = Provider.mockFailing (resolvedProviderName cfg) := by
    simp [createProvider, hkey]
  have hmsg : errorMessageFor (some (mockErrorMessage (resolvedProviderName cfg))) =
      apiKeyConfigMsg := by
    unfold errorMessageFor
    rw [mockErrorMessage_truthy, if_pos rfl]
    rw [show (some (mockErrorMessage (resolvedProviderName cfg))).getD "" =
        mockErrorMessage (resolvedProviderName cfg) from rfl]
    rw [mockErrorMessage_contains_apikey, if_pos rfl]
  have hbanner : errorMessageFor (some m) = "Error: " ++ m := by
    unfold errorMessageFor
    have ht : jsTruthyStr (some m) = true := by
      simp [jsTruthyStr, bne_iff_ne, hm1]
    rw [ht, if_pos rfl]
    rw [show (some m).getD "" = m from rfl, hm2]
    simp
  refine ⟨hprov, ?_, ?_, ?_, hbanner, ?_, ?_⟩
  · rw [hprov]; rfl
  · rw [hprov]; rfl
  · rw [hprov]
    show handleAiCommand st (Except.error
      { message := some (mockErrorMessage (resolvedProviderName cfg)) }) =
      (st, apiKeyConfigMsg)
    simp [handleAiCommand, hmsg]
  · rw [hbanner]
    exact containsSub_append_self "Error: " m
  · rw [hbanner]
    exact errorBanner_ne_apiKeyMsg m

/-- C6 witness: an entirely empty configuration with a vendor-style
failure message for the contrast half. -/
theorem c6_credential_missing_witness :
    jsTruthyStr (getApiKey {} (resolvedProviderName {})) = false ∧
    (createProvider {} = Provider.mockFailing (resolvedProviderName {}) ∧
     (createProvider {}).generateContent (Except.error { message := none }) =
       Except.error { message := some (mockErrorMessage (resolvedProviderName {})) } ∧
     (createProvider {}).generateJSON (Except.error { message := none }) =
       Except.error { message := some (mockErrorMessage (resolvedProviderName {})) } ∧
     handleAiCommand c2State
       ((createProvider {}).generateContent (Except.error { message := none })) =
       (c2State, apiKeyConfigMsg) ∧
     errorMessageFor (some "Gemini API error: 500 Internal Server Error") =
       "Error: " ++ "Gemini API error: 500 Internal Server Error" ∧
     containsSub (errorMessageFor (some "Gemini API error: 500 Internal Server Error"))
       "Gemini API error: 500 Internal Server Error" = true ∧
     errorMessageFor (some "Gemini API error: 500 Internal Server Error") ≠
       apiKeyConfigMsg) := by
  refine ⟨rfl, ?_⟩
  exact c6_credential_missing {} c2State (Except.error { message := none })
    (Except.error { message := none }) "Gemini API error: 500 Internal Server Error"
    rfl (by decide) (by decide)

/-! Claim C7: persisted state loading at startup. -/

/-- C7: a missing persisted value yields the typed default for every
key, but a PRESENT value that is not readable JSON makes the loader
throw (there is no catch around JSON.parse in the state initializers),
halting startup instead of falling back to the default — the missing-key
half of the claim holds and the corrupt-value half does not. -/
theorem c7_corrupt_storage_throws :
    loadStoredTasks none = Except.ok (Json.arr []) ∧
    loadStoredProfile none 7 = Except.ok (defaultProfileJson 7) ∧
    loadStoredNotes none = Except.ok (Json.arr []) ∧
    loadStoredTasks (some "\x7boops") =
      Except.error { message := some jsonArgsErrMsg } ∧
    loadStoredProfile (some "not json") 7 =
      Except.error { message := some jsonArgsErrMsg } ∧
    loadStoredNotes (some "[1,") =
      Except.error { message := some jsonArgsErrMsg } := by
  refine ⟨rfl, rfl, rfl, rfl, rfl, rfl⟩

/-! Claim C8: duration handling of update_task_notes. -/

/-- Arguments of the C8 counterexample: duration 0 is supplied. -/
def c8Args : ToolArgs :=
  { taskTitle := some "write report", notes := some "n", duration := some 0 }

/-- Arguments of the C8 witness: duration 45 is supplied. -/
def c8Args45 : ToolArgs :=
  { taskTitle := some "write report", notes := some "n", duration := some 45 }

/-- App state with the single C8 scenario task (duration 30). -/
def c8SingleState : AppState :=
  { tasks := [writeReportTask], generalNotes := [], fresh := 0, now := 0 }

/-- C8 counterexample: an update_task_notes invocation that supplies
duration = 0 leaves the matched task's estimated duration at its old
value 30 instead of overwriting it with 0 (0 is JS-falsy, so the
fallback branch of args.duration is taken). -/
theorem c8_counterexample :
    c8Args.duration = some 0 ∧
    ((dispatchFunctionCall c8SingleState
        { name := "update_task_notes", args := c8Args }).1.tasks.map
          Task.estimatedDuration) = [30] ∧
    (30 : Int) ≠ 0 := by
  refine ⟨rfl, rfl, by decide⟩

/-- C8 (amended): for a matched task, a supplied NONZERO duration
overwrites the estimated duration; an omitted duration leaves it
unchanged; and a supplied duration of 0 also leaves it unchanged (0 is
falsy in the JS fallback expression). -/
theorem c8_duration_update (st : AppState) (args : ToolArgs) (i : Nat) (t : Task)
    (d : Int) (ht : st.tasks[i]? = some t)
    (hm : containsSub (strLower t.title) (strLower (args.taskTitle.getD "undefined")) = true) :
    (args.duration = some d → d ≠ 0 →
      ((dispatchFunctionCall st { name := "update_task_notes", args := args }).1.tasks[i]?.map
        Task.estimatedDuration) = some d) ∧
    (args.duration = none →
      ((dispatchFunctionCall st { name := "update_task_notes", args := args }).1.tasks[i]?.map
        Task.estimatedDuration) = some t.estimatedDuration) ∧
    (args.duration = some 0 →
      ((dispatchFunctionCall st { name := "update_task_notes", args := args }).1.tasks[i]?.map
        Task.estimatedDuration) = some t.estimatedDuration) := by
  refine ⟨fun hd hdz => ?_, fun hd => ?_, fun hd => ?_⟩
  · simp [dispatchFunctionCall, List.getElem?_map, ht, hm, hd, jsTruthyNum, bne_iff_ne, hdz]
  · simp [dispatchFunctionCall, List.getElem?_map, ht, hm, hd, jsTruthyNum]
  · simp [dispatchFunctionCall, List.getElem?_map, ht, hm, hd, jsTruthyNum]

/-- C8 amended-claim witness: nonzero duration 45 at the concrete
matched task (and the hypotheses hold there). -/
theorem c8_duration_update_witness :
    c8SingleState.tasks[0]? = some writeReportTask ∧
    containsSub (strLower writeReportTask.title)
      (strLower (c8Args45.taskTitle.getD "undefined")) = true ∧
    ((dispatchFunctionCall c8SingleState
        { name := "update_task_notes", args := c8Args45 }).1.tasks[0]?.map
      Task.estimatedDuration) = some 45 := by
  refine ⟨rfl, rfl, ?_⟩
  exact (c8_duration_update c8SingleState c8Args45 0 writeReportTask 45 rfl rfl).1
    rfl (by decide)

/-! Claim C9: alarm trigger behavior. -/

/-- Task of the C9 scenario: reminder 09:00, alarm enabled, not done. -/
def alarmTask : Task :=
  { id := "t1", title := "Standup", notes := some "", category := "Private",
    priority := TaskPriority.medium, estimatedDuration := 15,
    reminderTime := some "09:00", alarmEnabled := true, completed := false,
    createdAt := 0 }

/-- C9 counterexample: if the user dismisses the ringing alarm while the
matching minute is still current, the very same task triggers the tone
AGAIN within that minute — two activations of one task in one matching
minute, so "activates at most once per task per matching minute" fails
as an unconditional statement. -/
theorem c9_counterexample :
    (runAlarm [alarmTask] none
      [UiEvent.tick "09:00", UiEvent.dismiss, UiEvent.tick "09:00"]).2 =
      [("09:00", "t1"), ("09:00", "t1")] ∧
    ¬((runAlarm [alarmTask] none
      [UiEvent.tick "09:00", UiEvent.dismiss, UiEvent.tick "09:00"]).2.length ≤ 1) := by
  refine ⟨rfl, by decide⟩

/-- C9 (amended): a tick only fires the tone for a task that is alarm
enabled, not completed, whose reminder equals the current minute (so a
later minute cannot re-trigger it), that is not already the active
alarm (so while it remains active — undismissed — it never re-fires,
within the same minute or later), and that is the FIRST match in stored
order; a tick that does not fire leaves the active alarm unchanged.
Dismissing during a still-matching minute, however, permits an
immediate re-trigger (see the counterexample). -/
theorem c9_single_trigger (tasks : List Task) (s : String) (active : Option Task) :
    ((tickAlarm tasks s active).2 = true →
      ∃ r, (tickAlarm tasks s active).1 = some r ∧
        r.alarmEnabled = true ∧ r.completed = false ∧ r.reminderTime = some s ∧
        active.map Task.id ≠ some r.id ∧
        ∃ l1 l2, tasks = l1 ++ r :: l2 ∧ ∀ t' ∈ l1, taskMatches s t' = false) ∧
    ((tickAlarm tasks s active).2 = false → (tickAlarm tasks s active).1 = active) := by
  constructor
  · intro hf
    unfold tickAlarm at hf ⊢
    cases hr : ringingTask tasks s with
    | none => rw [hr] at hf; simp at hf
    | some r =>
      rw [hr] at hf
      have hf2 : (if Option.map Task.id active = some r.id then (active, false)
          else (some r, true)).2 = true := hf
      by_cases hid : active.map Task.id = some r.id
      · rw [if_pos hid] at hf2; simp at hf2
      · have hfind : tasks.find? (taskMatches s) = some r := hr
        obtain ⟨hp, l1, l2, heq, hall⟩ := List.find?_eq_some.mp hfind
        have hp3 : (r.alarmEnabled = true ∧ r.reminderTime = some s) ∧
            r.completed = false := by
          simpa [taskMatches, Bool.and_eq_true, Bool.not_eq_true',
            beq_iff_eq] using hp
        have hfst : (if Option.map Task.id active = some r.id then (active, false)
            else (some r, true)).1 = some r := by rw [if_neg hid]
        refine ⟨r, hfst, hp3.1.1, hp3.2, hp3.1.2, hid, l1, l2, heq, ?_⟩
        intro t' ht'
        have := hall t' ht'
        simpa [Bool.not_eq_true'] using this
  · intro hf
    unfold tickAlarm at hf ⊢
    cases hr : ringingTask tasks s with
    | none => rfl
    | some r =>
      rw [hr] at hf
      have hf2 : (if Option.map Task.id active = some r.id then (active, false)
          else (some r, true)).2 = false := hf
      by_cases hid : active.map Task.id = some r.id
      · show (if Option.map Task.id active = some r.id then (active, false)
          else (some r, true)).1 = active
        rw [if_pos hid]
      · rw [if_neg hid] at hf2
        simp at hf2

/-- C9 amended-claim witness: the 09:00 scenario task fires once from a
fresh state and the characterization holds there. -/
theorem c9_single_trigger_witness :
    (tickAlarm [alarmTask] "09:00" none).2 = true ∧
    (∃ r, (tickAlarm [alarmTask] "09:00" none).1 = some r ∧
      r.alarmEnabled = true ∧ r.completed = false ∧ r.reminderTime = some "09:00" ∧
      (none : Option Task).map Task.id ≠ some r.id ∧
      ∃ l1 l2, [alarmTask] = l1 ++ r :: l2 ∧ ∀ t' ∈ l1, taskMatches "09:00" t' = false) := by
  refine ⟨rfl, ?_⟩
  exact (c9_single_trigger [alarmTask] "09:00" none).1 rfl

/-! Claim C10: shape of the vendor-B canonical response. -/

/-- C10: a successful vendor-B normalization yields a single candidate
whose parts are either all pure function-call parts (tool_calls branch,
where the assistant text is discarded and the result does not depend on
message content at all) or exactly one non-function-call text part. -/
theorem c10_no_mixed_parts (msg : OpenAIMessage) (r : AIResponse)
    (h : openAINormalize msg = Except.ok r) :
    (∃ parts, r.candidates = [{ content := { parts := parts } }] ∧
      ((∀ p ∈ parts, p.text = none ∧ p.functionCall.isSome = true) ∨
       (∃ p1, parts = [p1] ∧ p1.functionCall = none))) ∧
    (∀ calls, msg.tool_calls = some calls →
      ∀ x, openAINormalize { msg with content := x } = openAINormalize msg) := by
  constructor
  · unfold openAINormalize at h
    cases htc : msg.tool_calls with
    | none =>
      rw [htc] at h
      cases h
      exact ⟨_, rfl, Or.inr ⟨_, rfl, rfl⟩⟩
    | some calls =>
      rw [htc] at h
      have h2 : (match normalizeToolCalls calls with
          | Except.error e => Except.error e
          | Except.ok ps =>
            Except.ok ({ candidates := [{ content := { parts := ps } }] } : AIResponse)) =
          Except.ok r := h
      cases hn : normalizeToolCalls calls with
      | error e => rw [hn] at h2; cases h2
      | ok ps =>
        rw [hn] at h2
        cases h2
        exact ⟨ps, rfl, Or.inl (normalizeToolCalls_ok_parts calls ps hn)⟩
  · intro calls hcalls x
    unfold openAINormalize
    rw [hcalls]

/-- Vendor-B reply of the C10 witness: tool call plus accompanying text. -/
def c10Msg : OpenAIMessage :=
  { content := some "ignored text", tool_calls := some [c2GoodCall] }

/-- Canonical part the C10 witness reply normalizes to. -/
def c10ExpectedPart : Part :=
  { text := none
    functionCall := some
      { name := "create_task"
        args := { title := some "A", category := some "Private", duration := some 30 } } }

/-- Canonical response the C10 witness reply normalizes to. -/
def c10Result : AIResponse :=
  { candidates := [{ content := { parts := [c10ExpectedPart] } }] }

/-- C10 witness: a concrete tool-call reply whose accompanying text is
discarded; the normalized parts are pure function-call parts. -/
theorem c10_no_mixed_parts_witness :
    openAINormalize c10Msg = Except.ok c10Result ∧
    (∃ parts, c10Result.candidates = [{ content := { parts := parts } }] ∧
      ((∀ p ∈ parts, p.text = none ∧ p.functionCall.isSome = true) ∨
       (∃ p1, parts = [p1] ∧ p1.functionCall = none))) := by
  refine ⟨rfl, ?_⟩
  exact (c10_no_mixed_parts c10Msg c10Result rfl).1

end ZenTime
